import Mathlib

/-!
Verification of the contingency-analysis engine of the PowerMCP pandapower
tools (src/pandapower_tools/tools.py), as a shallow embedding.

Modelling decisions, each tied to the source:
* A pandapower network is split into its solver-input fields (bus indices
  and the line/trafo/gen collections with their in_service flags) and its
  solver-result fields (res_bus.vm_pu, res_line.pl_mw,
  res_line.loading_percent, res_trafo.loading_percent) plus the converged
  attribute.  pp.runpp reads only the input fields, so the external solver
  is modelled as a function from NetInput to Except String SolveOutput;
  with default arguments pp.runpp raises on non-convergence, so a
  non-raising solve leaves converged = True.
* Floating point values are modelled as rationals; pandas max/min of an
  empty float series is NaN, modelled as none.
* Python in-place mutation is explicit state passing: the per-iteration
  loop threads a LoopState record, and run_contingency_analysis takes and
  returns the global current-network slot (an Option Network).
* pandas .at[idx, col] = v assignment with a label absent from the index
  enlarges the frame by appending a new row; setInService mirrors that.
* pandapowerNet is a dict: net[key] succeeds for every present key and
  raises KeyError otherwise.  The model carries the element tables with an
  in_service column that the analysis can reach through net[key]: bus,
  line, trafo, gen, load, sgen, ext_grid and storage.  Remaining
  pandapowerNet entries (further element tables such as shunt or trafo3w,
  result tables, scalar attributes) are outside the model; a lookup of a
  key outside the modelled set is treated as raising, which is exact for
  keys absent from the dict such as breaker, and no theorem depends on the
  omitted present keys.  The message of the Python KeyError (str wraps the
  key in quotes) is modelled as the bare key string.
-/

namespace PowerMCP

/-- One row of an element table: its pandas index label and in_service flag. -/
structure Elem where
  idx : Nat
  inService : Bool
deriving Repr, DecidableEq

/-- Solver-input fields of a pandapower network: the element tables that
carry an in_service column.  Each table is a list of rows in insertion
order. -/
structure NetInput where
  bus : List Elem
  line : List Elem
  trafo : List Elem
  gen : List Elem
  load : List Elem
  sgen : List Elem
  ext_grid : List Elem
  storage : List Elem
deriving Repr, DecidableEq

/-- Solver-result tables written by a successful pp.runpp: per-bus vm_pu,
per-line pl_mw and loading_percent, per-trafo loading_percent. -/
structure SolveOutput where
  resBusVm : List (Nat × ℚ)
  resLinePl : List (Nat × ℚ)
  resLineLoading : List (Nat × ℚ)
  resTrafoLoading : List (Nat × ℚ)
deriving Repr, DecidableEq

/-- A pandapower network object: input fields, result tables (none before
any successful solve), and the converged attribute. -/
structure Network where
  input : NetInput
  res : Option SolveOutput
  converged : Bool
deriving Repr, DecidableEq

/-- The external power-flow solver, a black box reading only the input
fields (tools.py line 595 / 610 / 639, pp.runpp).  It either produces the
result tables or raises, modelled as Except. -/
def Solver : Type := NetInput → Except String SolveOutput

/-- Python exceptions that the engine can see, with the handler-relevant
distinction between RuntimeError (tools.py line 649) and everything else
(line 651).  keyErr is the KeyError from net[contingency_type] on an
unknown key (line 609); solverErr is any error raised by pp.runpp. -/
inductive PPErr where
  | runtimeErr (msg : String)
  | keyErr (key : String)
  | solverErr (msg : String)
deriving Repr, DecidableEq

/-- str(e) for a caught exception (tools.py line 635). -/
def PPErr.msg : PPErr → String
  | .runtimeErr m => m
  | .keyErr k => k
  | .solverErr m => m

/-- net[key] (tools.py line 609): pandapowerNet is a dict, so the lookup
succeeds for every present element table — not only the three contingency
kinds — and raises KeyError only for an absent key such as breaker. -/
def collOf (n : NetInput) (key : String) : Except PPErr (List Elem) :=
  if key = "line" then .ok n.line
  else if key = "trafo" then .ok n.trafo
  else if key = "gen" then .ok n.gen
  else if key = "bus" then .ok n.bus
  else if key = "load" then .ok n.load
  else if key = "sgen" then .ok n.sgen
  else if key = "ext_grid" then .ok n.ext_grid
  else if key = "storage" then .ok n.storage
  else .error (.keyErr key)

/-- Writes back the element table chosen by collOf. -/
def setColl (n : NetInput) (key : String) (c : List Elem) : NetInput :=
  if key = "line" then { n with line := c }
  else if key = "trafo" then { n with trafo := c }
  else if key = "gen" then { n with gen := c }
  else if key = "bus" then { n with bus := c }
  else if key = "load" then { n with load := c }
  else if key = "sgen" then { n with sgen := c }
  else if key = "ext_grid" then { n with ext_grid := c }
  else if key = "storage" then { n with storage := c }
  else n

/-- Rewrites every row labelled idx to in_service = False. -/
def updateInService (c : List Elem) (idx : Nat) : List Elem :=
  c.map (fun e => if e.idx = idx then ⟨e.idx, false⟩ else e)

/-- table.at[idx, in_service] = False (tools.py line 609): updates the row
when the label is present, otherwise enlarges the table with a new row. -/
def setInService (c : List Elem) (idx : Nat) : List Elem :=
  if c.any (fun e => e.idx == idx) then updateInService c idx
  else c ++ [⟨idx, false⟩]

/-- contingency_net[contingency_type].at[idx, in_service] = False as a
whole-network operation; fails with KeyError on an unknown key. -/
def disableElement (n : NetInput) (key : String) (idx : Nat) : Except PPErr NetInput :=
  match collOf n key with
  | .error e => .error e
  | .ok c => .ok (setColl n key (setInService c idx))

/-- The case network of one loop iteration: a fresh value copy of the
pristine network (orig_net.deepcopy(), line 606) with the one target
element disabled (line 609). -/
def caseNetOf (origNet : Network) (key : String) (idx : Nat) : Except PPErr Network :=
  match disableElement origNet.input key idx with
  | .error e => .error e
  | .ok inp => .ok { origNet with input := inp }

/-- Effect of a non-raising pp.runpp on the network object: result tables
written in place, converged set to True; input fields untouched. -/
def applySolve (net : Network) (out : SolveOutput) : Network :=
  { net with res := some out, converged := true }

/-- Bus indices whose vm_pu lies strictly outside [0.95, 1.05]
(tools.py lines 613-616); no rounding before the comparison.  The bounds
0.95 and 1.05 are written as the exact rationals mkRat 19 20 and
mkRat 21 20 (equal to the scientific literals, see
mem_voltageViolationsOf). -/
def voltageViolationsOf (out : SolveOutput) : List Nat :=
  (out.resBusVm.filter (fun p => decide (p.2 < mkRat 19 20 ∨ mkRat 21 20 < p.2))).map Prod.fst

/-- Line indices whose loading_percent is strictly above 100
(tools.py lines 618-620); res_trafo is never consulted. -/
def loadingViolationsOf (out : SolveOutput) : List Nat :=
  (out.resLineLoading.filter (fun p => decide (100 < p.2))).map Prod.fst

/-- Binary maximum on rationals, spelled with an explicit comparison. -/
def qmax (a b : ℚ) : ℚ := if a < b then b else a

/-- Binary minimum on rationals, spelled with an explicit comparison. -/
def qmin (a b : ℚ) : ℚ := if a < b then a else b

/-- pandas Series.max over floats: NaN (modelled none) when empty. -/
def listMaxQ : List ℚ → Option ℚ
  | [] => none
  | x :: xs => some (xs.foldl qmax x)

/-- pandas Series.min over floats: NaN (modelled none) when empty. -/
def listMinQ : List ℚ → Option ℚ
  | [] => none
  | x :: xs => some (xs.foldl qmin x)

/-- net.res_line pl_mw sum (tools.py line 597). -/
def sumLosses (out : SolveOutput) : ℚ :=
  (out.resLinePl.map Prod.snd).sum

/-- One entry of the contingency_results list.  The two constructors are
the two dict shapes built at tools.py lines 622-630 and 632-636: a
successful case records the violation lists and the three extrema, a
failed case records only the error message. -/
inductive CResult where
  | ok (contingency : String) (converged : Bool)
      (voltageViolations loadingViolations : List Nat)
      (maxLoadingPercent minVoltagePu maxVoltagePu : Option ℚ)
  | failed (contingency : String) (converged : Bool) (error : String)
deriving Repr, DecidableEq

/-- The contingency field shared by both shapes. -/
def CResult.contingency : CResult → String
  | .ok c _ _ _ _ _ _ => c
  | .failed c _ _ => c

/-- The converged field shared by both shapes. -/
def CResult.converged : CResult → Bool
  | .ok _ b _ _ _ _ _ => b
  | .failed _ b _ => b

/-- One iteration of the contingency loop (tools.py lines 605-636): take a
fresh copy of the pristine network, disable the one element, solve, and
classify; any exception inside the iteration is caught locally and
recorded as a failed entry. -/
def run_single_contingency (solver : Solver) (ctype : String) (origNet : Network)
    (idx : Nat) : CResult :=
  match caseNetOf origNet ctype idx with
  | .error e => .failed (ctype ++ "_" ++ toString idx) false e.msg
  | .ok cnet =>
    match solver cnet.input with
    | .error m => .failed (ctype ++ "_" ++ toString idx) false m
    | .ok out =>
      .ok (ctype ++ "_" ++ toString idx) true
        (voltageViolationsOf out) (loadingViolationsOf out)
        (listMaxQ (out.resLineLoading.map Prod.snd))
        (listMinQ (out.resBusVm.map Prod.snd))
        (listMaxQ (out.resBusVm.map Prod.snd))

/-- State threaded through the contingency loop: the live network (the
variable net), the pristine copy (orig_net), and the accumulated results
list. -/
structure LoopState where
  live : Network
  orig : Network
  results : List CResult
deriving Repr, DecidableEq

/-- One pass of the for-loop body: the Python statements assign only to
contingency_net (local to the iteration) and results, so only the results
component changes. -/
def loop_step (solver : Solver) (ctype : String) (s : LoopState) (idx : Nat) : LoopState :=
  { s with results := s.results ++ [run_single_contingency solver ctype s.orig idx] }

/-- The for-loop over the target indices (tools.py lines 605-636). -/
def contingency_loop (solver : Solver) (ctype : String) (indices : List Nat)
    (s : LoopState) : LoopState :=
  indices.foldl (loop_step solver ctype) s

/-- The aggregated report dict built at tools.py lines 641-647. -/
structure Report where
  message : String
  base_case_converged : Bool
  base_case_losses_mw : ℚ
  contingency_results : List CResult
deriving Repr, DecidableEq

/-- The value returned to the caller: either an error dict or the success
report; both carry a status key. -/
inductive RCAResult where
  | errorDict (message : String)
  | successReport (r : Report)
deriving Repr, DecidableEq

/-- The status field of the returned dict. -/
def RCAResult.status : RCAResult → String
  | .errorDict _ => "error"
  | .successReport _ => "success"

/-- Message of the RuntimeError raised by _get_network (tools.py line 92). -/
def noNetworkMsg : String :=
  "No pandapower network is currently loaded. Please create or load a network first."

/-- Index resolution (tools.py lines 576-587): when element_indices is
None the kind selects the full index list of its table and any other kind
is rejected with an early error-dict return; when element_indices is
given it is used verbatim and the kind is not inspected at all. -/
def resolve_indices (net : Network) (ctype : String) (eis : Option (List Nat)) :
    Except String (List Nat) :=
  match eis with
  | none =>
    if ctype = "line" then .ok (net.input.line.map Elem.idx)
    else if ctype = "trafo" then .ok (net.input.trafo.map Elem.idx)
    else if ctype = "gen" then .ok (net.input.gen.map Elem.idx)
    else .error ("Unknown contingency type: " ++ ctype)
  | some l => .ok l

/-- The base-case solve on the live network (tools.py lines 593-599):
on success the live network gains result fields and the losses are the
summed line pl_mw; on any raise the flag is False and the losses stay at
their 0.0 initialisation. -/
def base_case_solve (solver : Solver) (net : Network) : Network × Bool × ℚ :=
  match solver net.input with
  | .ok out => (applySolve net out, true, sumLosses out)
  | .error _ => (net, false, 0)

/-- run_contingency_analysis (tools.py lines 559-652) against an explicit
current-network slot; returns the slot as it is after the call together
with the dict handed to the caller.  The final restorative pp.runpp at
line 639 sits inside the outer try only, so its failure reaches the
except Exception handler at line 651 and becomes an error dict. -/
def run_contingency_analysis (solver : Solver) (slot : Option Network)
    (ctype : String) (eis : Option (List Nat)) : Option Network × RCAResult :=
  match slot with
  | none => (none, .errorDict noNetworkMsg)
  | some net =>
    match resolve_indices net ctype eis with
    | .error m => (some net, .errorDict m)
    | .ok indices =>
      let b := base_case_solve solver net
      let final := contingency_loop solver ctype indices ⟨b.1, b.1, []⟩
      match solver final.live.input with
      | .error m => (some final.live, .errorDict ("Contingency analysis failed: " ++ m))
      | .ok out =>
        (some (applySolve final.live out),
          .successReport
            { message := "Contingency analysis completed for " ++ toString indices.length
                ++ " " ++ ctype ++ "(s)",
              base_case_converged := b.2.1,
              base_case_losses_mw := b.2.2,
              contingency_results := final.results })

/-- First row of an element table with the given index label, in list
order, mirroring pandas unique-label row access. -/
def findElem (c : List Elem) (j : Nat) : Option Elem :=
  c.find? (fun e => e.idx == j)

/-- Observer for the in_service flag of one element of one table;
none when the table key is unknown or the row is absent. -/
def inServiceOf (n : NetInput) (key : String) (j : Nat) : Option Bool :=
  match collOf n key with
  | .error _ => none
  | .ok c => (findElem c j).map Elem.inService

/-! Concrete fixtures used by the closed instances below: small networks in
the shape of the spec scenario (three buses, two lines, and variants) and
simple concrete solvers. -/

/-- Three buses, two lines, no trafos, no gens; unsolved. -/
def exNetA : Network :=
  { input := { bus := [⟨0, true⟩, ⟨1, true⟩, ⟨2, true⟩],
               line := [⟨0, true⟩, ⟨1, true⟩], trafo := [], gen := [],
               load := [], sgen := [], ext_grid := [], storage := [] },
    res := none, converged := false }

/-- Two buses, one line, one gen, one load; unsolved. -/
def exNetB : Network :=
  { input := { bus := [⟨0, true⟩, ⟨1, true⟩],
               line := [⟨0, true⟩], trafo := [], gen := [⟨0, true⟩],
               load := [⟨0, true⟩], sgen := [], ext_grid := [], storage := [] },
    res := none, converged := false }

/-- One bus, two gens, no lines; unsolved. -/
def exNetC : Network :=
  { input := { bus := [⟨0, true⟩],
               line := [], trafo := [], gen := [⟨0, true⟩, ⟨1, true⟩],
               load := [], sgen := [], ext_grid := [], storage := [] },
    res := none, converged := false }

/-- Two buses, one trafo, no lines; unsolved. -/
def exNetT : Network :=
  { input := { bus := [⟨0, true⟩, ⟨1, true⟩],
               line := [], trafo := [⟨0, true⟩], gen := [],
               load := [], sgen := [], ext_grid := [], storage := [] },
    res := none, converged := false }

/-- A solver that always succeeds with flat voltages, an empty loss table
and 50 percent loading per line. -/
def okSolver : Solver := fun inp =>
  .ok { resBusVm := inp.bus.map (fun e => (e.idx, 1)),
        resLinePl := [],
        resLineLoading := inp.line.map (fun e => (e.idx, 50)),
        resTrafoLoading := inp.trafo.map (fun e => (e.idx, 50)) }

/-- A solver that always diverges. -/
def failSolver : Solver := fun _ =>
  .error "Power Flow nr did not converge after 10 iterations!"

/-- A solver that succeeds with every transformer loaded at 150 percent
and no line results. -/
def trafoOverloadSolver : Solver := fun inp =>
  .ok { resBusVm := inp.bus.map (fun e => (e.idx, 1)),
        resLinePl := [],
        resLineLoading := [],
        resTrafoLoading := inp.trafo.map (fun e => (e.idx, 150)) }

/-- A solver that puts bus 0 exactly at 0.95 pu, bus 1 exactly at 1.05 pu,
every other bus at 1 pu, and every line exactly at 100 percent loading. -/
def boundarySolver : Solver := fun inp =>
  .ok { resBusVm := inp.bus.map
          (fun e => (e.idx,
            if e.idx = 0 then mkRat 19 20 else if e.idx = 1 then mkRat 21 20 else 1)),
        resLinePl := [],
        resLineLoading := inp.line.map (fun e => (e.idx, 100)),
        resTrafoLoading := [] }

/-- The contingency case obtained from exNetA by disabling line 0. -/
def caseA0 : Network :=
  { input := { bus := [⟨0, true⟩, ⟨1, true⟩, ⟨2, true⟩],
               line := [⟨0, false⟩, ⟨1, true⟩], trafo := [], gen := [],
               load := [], sgen := [], ext_grid := [], storage := [] },
    res := none, converged := false }

/-- The contingency case obtained from exNetT by disabling trafo 0. -/
def caseT0 : Network :=
  { input := { bus := [⟨0, true⟩, ⟨1, true⟩],
               line := [], trafo := [⟨0, false⟩], gen := [],
               load := [], sgen := [], ext_grid := [], storage := [] },
    res := none, converged := false }

/-- What trafoOverloadSolver returns on the disabled-trafo case of exNetT. -/
def outTrafoT0 : SolveOutput :=
  { resBusVm := [(0, 1), (1, 1)], resLinePl := [], resLineLoading := [],
    resTrafoLoading := [(0, 150)] }

/-- What boundarySolver returns on the disabled-line-0 case of exNetA. -/
def outBoundaryA0 : SolveOutput :=
  { resBusVm := [(0, mkRat 19 20), (1, mkRat 21 20), (2, 1)], resLinePl := [],
    resLineLoading := [(0, 100), (1, 100)], resTrafoLoading := [] }

/-- The report returned for okSolver on exNetA over both lines. -/
def repA : Report :=
  { message := "Contingency analysis completed for 2 line(s)",
    base_case_converged := true,
    base_case_losses_mw := 0,
    contingency_results :=
      [.ok "line_0" true [] [] (some 50) (some 1) (some 1),
       .ok "line_1" true [] [] (some 50) (some 1) (some 1)] }

/-- The report returned for okSolver on exNetA with an explicitly empty
index list. -/
def repEmpty : Report :=
  { message := "Contingency analysis completed for 0 line(s)",
    base_case_converged := true,
    base_case_losses_mw := 0,
    contingency_results := [] }

/-! Helper lemmas about the embedded operations. -/

/-- A solve never changes the input fields of the network. -/
theorem applySolve_input (net : Network) (out : SolveOutput) :
    (applySolve net out).input = net.input := rfl

/-- Unfolding one iteration of the loop. -/
theorem contingency_loop_cons (solver : Solver) (ctype : String) (i : Nat)
    (L : List Nat) (st : LoopState) :
    contingency_loop solver ctype (i :: L) st
      = contingency_loop solver ctype L (loop_step solver ctype st i) := rfl

/-- The loop never reassigns the live network. -/
theorem contingency_loop_live (solver : Solver) (ctype : String) (L : List Nat)
    (st : LoopState) : (contingency_loop solver ctype L st).live = st.live := by
  induction L generalizing st with
  | nil => rfl
  | cons i L ih => rw [contingency_loop_cons]; exact ih _

/-- The loop never reassigns the pristine copy. -/
theorem contingency_loop_orig (solver : Solver) (ctype : String) (L : List Nat)
    (st : LoopState) : (contingency_loop solver ctype L st).orig = st.orig := by
  induction L generalizing st with
  | nil => rfl
  | cons i L ih => rw [contingency_loop_cons]; exact ih _

/-- The loop appends exactly one entry per target index, each computed
from the pristine copy alone, in the order of the index list. -/
theorem contingency_loop_results (solver : Solver) (ctype : String) (L : List Nat)
    (st : LoopState) :
    (contingency_loop solver ctype L st).results
      = st.results ++ L.map (run_single_contingency solver ctype st.orig) := by
  induction L generalizing st with
  | nil => simp [contingency_loop]
  | cons i L ih =>
    rw [contingency_loop_cons, ih]
    simp [loop_step]

/-- Membership in the recorded voltage-violation list is exactly a solved
vm_pu strictly outside the closed interval from 0.95 to 1.05. -/
theorem mem_voltageViolationsOf (out : SolveOutput) (b : Nat) :
    b ∈ voltageViolationsOf out
      ↔ ∃ v : ℚ, (b, v) ∈ out.resBusVm ∧ (v < 0.95 ∨ 1.05 < v) := by
  have hb : ∀ v : ℚ, (v < mkRat 19 20 ∨ mkRat 21 20 < v) ↔ (v < 0.95 ∨ 1.05 < v) := by
    intro v
    norm_num
  unfold voltageViolationsOf
  simp only [List.mem_map, List.mem_filter, decide_eq_true_eq]
  constructor
  · rintro ⟨⟨b0, v⟩, ⟨hmem, hv⟩, hfst⟩
    exact ⟨v, by simpa [← hfst] using hmem, (hb v).1 hv⟩
  · rintro ⟨v, hmem, hv⟩
    exact ⟨(b, v), ⟨hmem, (hb v).2 hv⟩, rfl⟩

/-- Membership in the recorded loading-violation list is exactly a solved
line loading_percent strictly above 100. -/
theorem mem_loadingViolationsOf (out : SolveOutput) (j : Nat) :
    j ∈ loadingViolationsOf out
      ↔ ∃ q : ℚ, (j, q) ∈ out.resLineLoading ∧ 100 < q := by
  unfold loadingViolationsOf
  simp only [List.mem_map, List.mem_filter, decide_eq_true_eq]
  constructor
  · rintro ⟨⟨j0, q⟩, ⟨hmem, hq⟩, hfst⟩
    exact ⟨q, by simpa [← hfst] using hmem, hq⟩
  · rintro ⟨q, hmem, hq⟩
    exact ⟨(j, q), ⟨hmem, hq⟩, rfl⟩

/-- Unfolding findElem over a cons cell. -/
theorem findElem_cons (e : Elem) (rest : List Elem) (j : Nat) :
    findElem (e :: rest) j = if e.idx = j then some e else findElem rest j := by
  by_cases h : e.idx = j
  · rw [if_pos h]
    exact List.find?_cons_of_pos _ (by simpa using h)
  · rw [if_neg h]
    exact List.find?_cons_of_neg _ (by simpa using h)

/-- Updating the rows labelled idx leaves every other label's row as it
was. -/
theorem findElem_updateInService_other (c : List Elem) (idx j : Nat) (h : j ≠ idx) :
    findElem (updateInService c idx) j = findElem c j := by
  induction c with
  | nil => rfl
  | cons e rest ih =>
    have hcons : updateInService (e :: rest) idx
        = (if e.idx = idx then ⟨e.idx, false⟩ else e) :: updateInService rest idx := by
      simp [updateInService]
    rw [hcons, findElem_cons, findElem_cons]
    by_cases he : e.idx = idx
    · simp [he, ih, Ne.symm h]
    · by_cases hej : e.idx = j
      · simp [he, hej, h]
      · simp [he, hej, ih]

/-- When the label is present, updating sets its in_service flag to
false. -/
theorem findElem_updateInService_self (c : List Elem) (idx : Nat)
    (h : c.any (fun e => e.idx == idx) = true) :
    (findElem (updateInService c idx) idx).map Elem.inService = some false := by
  induction c with
  | nil => simp at h
  | cons e rest ih =>
    have hcons : updateInService (e :: rest) idx
        = (if e.idx = idx then ⟨e.idx, false⟩ else e) :: updateInService rest idx := by
      simp [updateInService]
    rw [hcons, findElem_cons]
    by_cases he : e.idx = idx
    · simp [he]
    · have hrest : rest.any (fun e => e.idx == idx) = true := by
        simpa [he] using h
      simp [he, ih hrest]

/-- When the label is absent, the enlarging append makes it findable with
in_service false. -/
theorem findElem_append_self (c : List Elem) (idx : Nat)
    (h : c.any (fun e => e.idx == idx) = false) :
    findElem (c ++ [⟨idx, false⟩]) idx = some ⟨idx, false⟩ := by
  induction c with
  | nil => simp [findElem_cons]
  | cons e rest ih =>
    simp only [List.any_cons, Bool.or_eq_false_iff] at h
    have he : ¬ e.idx = idx := by simpa using h.1
    rw [List.cons_append, findElem_cons, if_neg he]
    exact ih h.2

/-- The enlarging append does not disturb any other label's row. -/
theorem findElem_append_other (c : List Elem) (idx j : Nat) (h : j ≠ idx) :
    findElem (c ++ [⟨idx, false⟩]) j = findElem c j := by
  induction c with
  | nil =>
    have hne : ¬ (⟨idx, false⟩ : Elem).idx = j := fun hh => h hh.symm
    simp [findElem_cons, hne, findElem]
  | cons e rest ih =>
    rw [List.cons_append, findElem_cons, findElem_cons, ih]

/-- Disabling at idx leaves the flag at idx false, whether the row was
updated or enlarged. -/
theorem findElem_setInService_self (c : List Elem) (idx : Nat) :
    (findElem (setInService c idx) idx).map Elem.inService = some false := by
  unfold setInService
  split
  · exact findElem_updateInService_self c idx (by assumption)
  · next h =>
    rw [findElem_append_self c idx (by simpa using h)]
    rfl

/-- Disabling at idx does not disturb any other label's row. -/
theorem findElem_setInService_other (c : List Elem) (idx j : Nat) (h : j ≠ idx) :
    findElem (setInService c idx) j = findElem c j := by
  unfold setInService
  split
  · exact findElem_updateInService_other c idx j h
  · exact findElem_append_other c idx j h

/-- Writing a table that is present (the lookup of its key succeeds) and
then reading the same key gives back what was written. -/
theorem collOf_setColl_self (n : NetInput) (key : String) (c c2 : List Elem)
    (h : collOf n key = .ok c) :
    collOf (setColl n key c2) key = .ok c2 := by
  by_cases h1 : key = "line"
  · subst h1; rfl
  by_cases h2 : key = "trafo"
  · subst h2; rfl
  by_cases h3 : key = "gen"
  · subst h3; rfl
  by_cases h4 : key = "bus"
  · subst h4; rfl
  by_cases h5 : key = "load"
  · subst h5; rfl
  by_cases h6 : key = "sgen"
  · subst h6; rfl
  by_cases h7 : key = "ext_grid"
  · subst h7; rfl
  by_cases h8 : key = "storage"
  · subst h8; rfl
  exfalso
  unfold collOf at h
  rw [if_neg h1, if_neg h2, if_neg h3, if_neg h4, if_neg h5, if_neg h6, if_neg h7,
    if_neg h8] at h
  exact absurd h (by simp)

/-- Writing one table leaves every other key's lookup unchanged. -/
theorem collOf_setColl_other (n : NetInput) (key key2 : String) (c : List Elem)
    (h : key2 ≠ key) :
    collOf (setColl n key c) key2 = collOf n key2 := by
  by_cases h1 : key = "line"
  · subst h1
    rw [show setColl n "line" c = { n with line := c } from rfl]
    simp [collOf, h]
  by_cases h2 : key = "trafo"
  · subst h2
    rw [show setColl n "trafo" c = { n with trafo := c } from rfl]
    simp [collOf, h]
  by_cases h3 : key = "gen"
  · subst h3
    rw [show setColl n "gen" c = { n with gen := c } from rfl]
    simp [collOf, h]
  by_cases h4 : key = "bus"
  · subst h4
    rw [show setColl n "bus" c = { n with bus := c } from rfl]
    simp [collOf, h]
  by_cases h5 : key = "load"
  · subst h5
    rw [show setColl n "load" c = { n with load := c } from rfl]
    simp [collOf, h]
  by_cases h6 : key = "sgen"
  · subst h6
    rw [show setColl n "sgen" c = { n with sgen := c } from rfl]
    simp [collOf, h]
  by_cases h7 : key = "ext_grid"
  · subst h7
    rw [show setColl n "ext_grid" c = { n with ext_grid := c } from rfl]
    simp [collOf, h]
  by_cases h8 : key = "storage"
  · subst h8
    rw [show setColl n "storage" c = { n with storage := c } from rfl]
    simp [collOf, h]
  have hid : setColl n key c = n := by
    unfold setColl
    rw [if_neg h1, if_neg h2, if_neg h3, if_neg h4, if_neg h5, if_neg h6, if_neg h7,
      if_neg h8]
  rw [hid]

/-- A successfully built contingency case is the pristine network with
exactly the target flag forced to false: same result fields, every table
other than the target kind unchanged, target in_service false, and every
other in_service flag (over every table and label) as in the pristine
copy. -/
theorem caseNetOf_spec (origNet : Network) (ctype : String) (idx : Nat) (cnet : Network)
    (h : caseNetOf origNet ctype idx = .ok cnet) :
    (∀ key, key ≠ ctype → collOf cnet.input key = collOf origNet.input key) ∧
    cnet.res = origNet.res ∧
    inServiceOf cnet.input ctype idx = some false ∧
    (∀ key j, ¬(key = ctype ∧ j = idx) →
      inServiceOf cnet.input key j = inServiceOf origNet.input key j) := by
  unfold caseNetOf disableElement at h
  cases hc : collOf origNet.input ctype with
  | error e => rw [hc] at h; exact absurd h (by simp)
  | ok c =>
    rw [hc] at h
    simp only [Except.ok.injEq] at h
    subst h
    refine ⟨?_, rfl, ?_, ?_⟩
    · intro key hk
      exact collOf_setColl_other origNet.input ctype key _ hk
    · simp only [inServiceOf, collOf_setColl_self origNet.input ctype c _ hc]
      exact findElem_setInService_self c idx
    · intro key j hne
      by_cases hk : key = ctype
      · subst hk
        have hj : j ≠ idx := fun hj => hne ⟨rfl, hj⟩
        simp only [inServiceOf, collOf_setColl_self origNet.input key c _ hc, hc,
          findElem_setInService_other c idx j hj]
      · simp only [inServiceOf, collOf_setColl_other origNet.input ctype key _ hk]

/-- Equation for an iteration whose element-disabling step raises. -/
theorem run_single_contingency_case_err (solver : Solver) (ctype : String)
    (origNet : Network) (idx : Nat) (e : PPErr)
    (hc : caseNetOf origNet ctype idx = .error e) :
    run_single_contingency solver ctype origNet idx
      = .failed (ctype ++ "_" ++ toString idx) false e.msg := by
  simp only [run_single_contingency, hc]

/-- Equation for an iteration whose solve raises. -/
theorem run_single_contingency_solver_err (solver : Solver) (ctype : String)
    (origNet : Network) (idx : Nat) (cnet : Network) (m : String)
    (hc : caseNetOf origNet ctype idx = .ok cnet)
    (hs : solver cnet.input = .error m) :
    run_single_contingency solver ctype origNet idx
      = .failed (ctype ++ "_" ++ toString idx) false m := by
  simp only [run_single_contingency, hc, hs]

/-- Equation for an iteration whose solve succeeds. -/
theorem run_single_contingency_ok_eq (solver : Solver) (ctype : String)
    (origNet : Network) (idx : Nat) (cnet : Network) (out : SolveOutput)
    (hc : caseNetOf origNet ctype idx = .ok cnet)
    (hs : solver cnet.input = .ok out) :
    run_single_contingency solver ctype origNet idx
      = .ok (ctype ++ "_" ++ toString idx) true
          (voltageViolationsOf out) (loadingViolationsOf out)
          (listMaxQ (out.resLineLoading.map Prod.snd))
          (listMinQ (out.resBusVm.map Prod.snd))
          (listMaxQ (out.resBusVm.map Prod.snd)) := by
  simp only [run_single_contingency, hc, hs]

/-- Both entry shapes carry the contingency name kind_idx. -/
theorem run_single_contingency_name (solver : Solver) (ctype : String)
    (origNet : Network) (idx : Nat) :
    (run_single_contingency solver ctype origNet idx).contingency
      = ctype ++ "_" ++ toString idx := by
  cases hc : caseNetOf origNet ctype idx with
  | error e =>
    rw [run_single_contingency_case_err solver ctype origNet idx e hc]
    rfl
  | ok cnet =>
    cases hs : solver cnet.input with
    | error m =>
      rw [run_single_contingency_solver_err solver ctype origNet idx cnet m hc hs]
      rfl
    | ok out =>
      rw [run_single_contingency_ok_eq solver ctype origNet idx cnet out hc hs]
      rfl

/-- Claim C4: in a converged contingency case, a bus is recorded as a
voltage violation exactly when its solved vm_pu is strictly below 0.95 or
strictly above 1.05 (the boundary values are not violations), and a line
is recorded as a loading violation exactly when its solved loading
percent is strictly greater than 100; the comparisons are on the raw
solved values, with no rounding. -/
theorem C4_violation_policy (solver : Solver) (ctype : String) (origNet : Network)
    (idx : Nat) (cnet : Network) (out : SolveOutput)
    (hc : caseNetOf origNet ctype idx = .ok cnet)
    (hs : solver cnet.input = .ok out) :
    run_single_contingency solver ctype origNet idx
      = .ok (ctype ++ "_" ++ toString idx) true
          (voltageViolationsOf out) (loadingViolationsOf out)
          (listMaxQ (out.resLineLoading.map Prod.snd))
          (listMinQ (out.resBusVm.map Prod.snd))
          (listMaxQ (out.resBusVm.map Prod.snd)) ∧
    (∀ b : Nat, b ∈ voltageViolationsOf out
        ↔ ∃ v : ℚ, (b, v) ∈ out.resBusVm ∧ (v < 0.95 ∨ 1.05 < v)) ∧
    (∀ j : Nat, j ∈ loadingViolationsOf out
        ↔ ∃ q : ℚ, (j, q) ∈ out.resLineLoading ∧ 100 < q) := by
  exact ⟨run_single_contingency_ok_eq solver ctype origNet idx cnet out hc hs,
    fun b => mem_voltageViolationsOf out b, fun j => mem_loadingViolationsOf out j⟩

/-- Witness for C4 at the boundary: solved voltages of exactly 0.95 and
1.05 pu and a loading of exactly 100 percent yield empty violation
lists. -/
theorem C4_witness :
    caseNetOf exNetA "line" 0 = .ok caseA0 ∧
    boundarySolver caseA0.input = .ok outBoundaryA0 ∧
    run_single_contingency boundarySolver "line" exNetA 0
      = .ok "line_0" true [] [] (some 100) (some (mkRat 19 20)) (some (mkRat 21 20)) := by
  have h := C4_violation_policy boundarySolver "line" exNetA 0 caseA0 outBoundaryA0 rfl rfl
  refine ⟨rfl, rfl, ?_⟩
  rw [h.1]
  decide

/-- Claim C3 counterexample: a converged case of the one-trafo network in
which the solver reports transformer 0 loaded at 150 percent, yet the
recorded loading-violation list is empty, because only res_line is
consulted (tools.py line 618) and the network has no lines. -/
theorem C3_counterexample :
    caseNetOf exNetT "trafo" 0 = .ok caseT0 ∧
    trafoOverloadSolver caseT0.input = .ok outTrafoT0 ∧
    (0, (150 : ℚ)) ∈ outTrafoT0.resTrafoLoading ∧ (100 : ℚ) < 150 ∧
    run_single_contingency trafoOverloadSolver "trafo" exNetT 0
      = .ok "trafo_0" true [] [] none (some 1) (some 1) ∧
    (0 : Nat) ∉ loadingViolationsOf outTrafoT0 := by
  refine ⟨rfl, rfl, by decide, by decide, by decide, by decide⟩

/-- Claim C3 as amended: in a converged contingency case the recorded
loading-violation list contains exactly the line indices whose solved
loading percent is strictly above 100; transformer loadings are never
inspected, so a transformer index enters the list only through
res_line. -/
theorem C3_loading_violations_lines_only (solver : Solver) (ctype : String)
    (origNet : Network) (idx : Nat) (cnet : Network) (out : SolveOutput)
    (hc : caseNetOf origNet ctype idx = .ok cnet)
    (hs : solver cnet.input = .ok out) :
    (∃ vv ml mv Mv, run_single_contingency solver ctype origNet idx
      = .ok (ctype ++ "_" ++ toString idx) true vv (loadingViolationsOf out) ml mv Mv) ∧
    (∀ j : Nat, j ∈ loadingViolationsOf out
        ↔ ∃ q : ℚ, (j, q) ∈ out.resLineLoading ∧ 100 < q) := by
  constructor
  · exact ⟨voltageViolationsOf out, listMaxQ (out.resLineLoading.map Prod.snd),
      listMinQ (out.resBusVm.map Prod.snd), listMaxQ (out.resBusVm.map Prod.snd),
      run_single_contingency_ok_eq solver ctype origNet idx cnet out hc hs⟩
  · exact fun j => mem_loadingViolationsOf out j

/-- Witness for C3 as amended, at the overloaded-transformer case. -/
theorem C3_witness :
    caseNetOf exNetT "trafo" 0 = .ok caseT0 ∧
    trafoOverloadSolver caseT0.input = .ok outTrafoT0 ∧
    (∀ j : Nat, j ∈ loadingViolationsOf outTrafoT0
        ↔ ∃ q : ℚ, (j, q) ∈ outTrafoT0.resLineLoading ∧ 100 < q) :=
  ⟨rfl, rfl,
    (C3_loading_violations_lines_only trafoOverloadSolver "trafo" exNetT 0 caseT0
      outTrafoT0 rfl rfl).2⟩

/-- Claim C7: an entry whose converged flag is false is always the failed
shape, which carries the error message and has no violation-list or
extrema fields at all; and the loop always produces one entry per target
index, so one case's solver error never prevents the remaining indices
from being processed. -/
theorem C7_failed_entry_shape (solver : Solver) (ctype : String) (origNet : Network)
    (idx : Nat) :
    ((run_single_contingency solver ctype origNet idx).converged = false →
      ∃ e, run_single_contingency solver ctype origNet idx
        = .failed (ctype ++ "_" ++ toString idx) false e) ∧
    (∀ (L : List Nat) (st : LoopState),
      (contingency_loop solver ctype L st).results.length
        = st.results.length + L.length) := by
  constructor
  · intro hconv
    cases hc : caseNetOf origNet ctype idx with
    | error e =>
      exact ⟨e.msg, run_single_contingency_case_err solver ctype origNet idx e hc⟩
    | ok cnet =>
      cases hs : solver cnet.input with
      | error m =>
        exact ⟨m, run_single_contingency_solver_err solver ctype origNet idx cnet m hc hs⟩
      | ok out =>
        rw [run_single_contingency_ok_eq solver ctype origNet idx cnet out hc hs] at hconv
        exact absurd hconv (by simp [CResult.converged])
  · intro L st
    rw [contingency_loop_results]
    simp

/-- Witness for C7: a diverging case is recorded as the failed shape and
a two-index sweep still yields two entries. -/
theorem C7_witness :
    (run_single_contingency failSolver "line" exNetA 0).converged = false ∧
    (∃ e, run_single_contingency failSolver "line" exNetA 0
      = .failed ("line" ++ "_" ++ toString 0) false e) ∧
    (contingency_loop failSolver "line" [0, 1] ⟨exNetA, exNetA, []⟩).results.length
      = (⟨exNetA, exNetA, []⟩ : LoopState).results.length + [0, 1].length := by
  refine ⟨by decide, ?_, ?_⟩
  · exact (C7_failed_entry_shape failSolver "line" exNetA 0).1 (by decide)
  · exact (C7_failed_entry_shape failSolver "line" exNetA 0).2 [0, 1] ⟨exNetA, exNetA, []⟩

/-- Equation for the whole call when the solver fails on the live
network's input fields: the base case records the failure, the loop still
runs, and then the unprotected restorative solve at tools.py line 639
fails as well, turning the call into an error dict. -/
theorem run_contingency_analysis_err (solver : Solver) (net : Network) (ctype : String)
    (eis : Option (List Nat)) (L : List Nat) (e : String)
    (hres : resolve_indices net ctype eis = .ok L)
    (hb : solver net.input = .error e) :
    run_contingency_analysis solver (some net) ctype eis
      = (some net, .errorDict ("Contingency analysis failed: " ++ e)) := by
  simp [run_contingency_analysis, hres, base_case_solve, hb, contingency_loop_live]

/-- Equation for the whole call when the solver succeeds on the live
network's input fields: base case and restorative solve both succeed and
the report carries one entry per resolved index, each computed from the
pristine post-base-solve copy. -/
theorem run_contingency_analysis_ok (solver : Solver) (net : Network) (ctype : String)
    (eis : Option (List Nat)) (L : List Nat) (out : SolveOutput)
    (hres : resolve_indices net ctype eis = .ok L)
    (hb : solver net.input = .ok out) :
    run_contingency_analysis solver (some net) ctype eis
      = (some (applySolve (applySolve net out) out),
         .successReport
           { message := "Contingency analysis completed for " ++ toString L.length
               ++ " " ++ ctype ++ "(s)",
             base_case_converged := true,
             base_case_losses_mw := sumLosses out,
             contingency_results :=
               L.map (run_single_contingency solver ctype (applySolve net out)) }) := by
  simp [run_contingency_analysis, hres, base_case_solve, hb, contingency_loop_live,
    contingency_loop_results, contingency_loop_orig, applySolve]

/-- Claim C1 counterexample: with an always-diverging solver, steps 1-5
complete (the base-case failure is recorded and the loop runs), the final
restorative re-solve then fails, and the call does not return the
aggregated report: it returns a status error dict. -/
theorem C1_counterexample :
    failSolver exNetA.input = .error "Power Flow nr did not converge after 10 iterations!" ∧
    (run_contingency_analysis failSolver (some exNetA) "line" none).2
      = .errorDict ("Contingency analysis failed: "
          ++ "Power Flow nr did not converge after 10 iterations!") ∧
    (run_contingency_analysis failSolver (some exNetA) "line" none).2.status = "error" :=
  ⟨rfl, rfl, rfl⟩

/-- Claim C1 as amended: a failure of the final restorative re-solve is
surfaced as a failure of the whole call — the exception reaches the outer
handler, the call returns a status error dict prefixed with Contingency
analysis failed, and the per-contingency results are discarded; the
aggregated report is returned only when the restorative solve succeeds.
Because the loop leaves the live network's input fields untouched, the
restorative solve sees exactly the base-case input, so its outcome is the
solver's outcome on the live input. -/
theorem C1_restore_failure_surfaced (solver : Solver) (net : Network) (ctype : String)
    (eis : Option (List Nat)) (L : List Nat)
    (hres : resolve_indices net ctype eis = .ok L) :
    (∀ e, solver net.input = .error e →
      (run_contingency_analysis solver (some net) ctype eis).2
        = .errorDict ("Contingency analysis failed: " ++ e)) ∧
    (∀ out, solver net.input = .ok out →
      (run_contingency_analysis solver (some net) ctype eis).2
        = .successReport
          { message := "Contingency analysis completed for " ++ toString L.length
              ++ " " ++ ctype ++ "(s)",
            base_case_converged := true,
            base_case_losses_mw := sumLosses out,
            contingency_results :=
              L.map (run_single_contingency solver ctype (applySolve net out)) }) := by
  constructor
  · intro e hb
    have h := congrArg Prod.snd (run_contingency_analysis_err solver net ctype eis L e hres hb)
    simpa using h
  · intro out hb
    have h := congrArg Prod.snd (run_contingency_analysis_ok solver net ctype eis L out hres hb)
    simpa using h

/-- Witness for C1 as amended: both hypotheses hold at a concrete failing
run, and the call returns the error dict instead of a report. -/
theorem C1_witness :
    resolve_indices exNetB "line" none = .ok [0] ∧
    failSolver exNetB.input = .error "Power Flow nr did not converge after 10 iterations!" ∧
    (run_contingency_analysis failSolver (some exNetB) "line" none).2
      = .errorDict ("Contingency analysis failed: "
          ++ "Power Flow nr did not converge after 10 iterations!") := by
  refine ⟨rfl, rfl, ?_⟩
  exact (C1_restore_failure_surfaced failSolver exNetB "line" none [0] rfl).1 _ rfl

/-- Claim C6 counterexample: when the base-case solve raises, the batch
does proceed, but the returned value is a status error dict (the
restorative solve of the same unchanged input also fails), so
base_case_converged and base_case_losses_mw appear in no returned
report. -/
theorem C6_counterexample :
    failSolver exNetC.input = .error "Power Flow nr did not converge after 10 iterations!" ∧
    (run_contingency_analysis failSolver (some exNetC) "gen" none).2
      = .errorDict ("Contingency analysis failed: "
          ++ "Power Flow nr did not converge after 10 iterations!") ∧
    (run_contingency_analysis failSolver (some exNetC) "gen" none).2.status = "error" :=
  ⟨rfl, rfl, rfl⟩

/-- Claim C6 as amended: if the base-case solve raises, the analysis
records base_case_converged false with losses 0.0 and still runs every
per-element contingency iteration — the sweep is never aborted — but the
final restorative solve of the same unchanged live input then fails as
well, so the call returns a status error dict and those recorded fields
are not part of any returned report. -/
theorem C6_base_failure_behavior (solver : Solver) (net : Network) (ctype : String)
    (eis : Option (List Nat)) (L : List Nat) (e : String)
    (hres : resolve_indices net ctype eis = .ok L)
    (hfail : solver net.input = .error e) :
    base_case_solve solver net = (net, false, 0) ∧
    (contingency_loop solver ctype L ⟨net, net, []⟩).results
      = L.map (run_single_contingency solver ctype net) ∧
    (run_contingency_analysis solver (some net) ctype eis).2
      = .errorDict ("Contingency analysis failed: " ++ e) := by
  refine ⟨by simp [base_case_solve, hfail], ?_, ?_⟩
  · simpa using contingency_loop_results solver ctype L ⟨net, net, []⟩
  · have h := congrArg Prod.snd (run_contingency_analysis_err solver net ctype eis L e hres hfail)
    simpa using h

/-- Witness for C6 as amended at a concrete two-generator sweep. -/
theorem C6_witness :
    resolve_indices exNetC "gen" none = .ok [0, 1] ∧
    failSolver exNetC.input = .error "Power Flow nr did not converge after 10 iterations!" ∧
    base_case_solve failSolver exNetC = (exNetC, false, 0) ∧
    (contingency_loop failSolver "gen" [0, 1] ⟨exNetC, exNetC, []⟩).results
      = [0, 1].map (run_single_contingency failSolver "gen" exNetC) := by
  have h := C6_base_failure_behavior failSolver exNetC "gen" none [0, 1] _ rfl rfl
  exact ⟨rfl, rfl, h.1, h.2.1⟩

/-- Claim C2 counterexample: with an explicitly passed element_indices
list the kind is never validated and the call does not fail with the
unsupported-kind error.  The kind breaker (absent from the pandapowerNet
dict) returns a status success report whose single entry is a locally
failed result carrying the KeyError text; the kind load (a present
element table that is not one of the three contingency kinds) likewise
does not fail the call — it runs a genuine single-load outage and returns
a success report with a converged entry. -/
theorem C2_counterexample :
    ((run_contingency_analysis okSolver (some exNetA) "breaker" (some [0])).2
      = .successReport
        { message := "Contingency analysis completed for 1 breaker(s)",
          base_case_converged := true,
          base_case_losses_mw := 0,
          contingency_results := [.failed "breaker_0" false "breaker"] } ∧
     (run_contingency_analysis okSolver (some exNetA) "breaker" (some [0])).2.status
      = "success") ∧
    ((run_contingency_analysis okSolver (some exNetB) "load" (some [0])).2
      = .successReport
        { message := "Contingency analysis completed for 1 load(s)",
          base_case_converged := true,
          base_case_losses_mw := 0,
          contingency_results :=
            [.ok "load_0" true [] [] (some 50) (some 1) (some 1)] } ∧
     (run_contingency_analysis okSolver (some exNetB) "load" (some [0])).2.status
      = "success") :=
  ⟨⟨rfl, rfl⟩, ⟨rfl, rfl⟩⟩

/-- Claim C2 as amended: the kind is validated only when element_indices
is omitted — then any kind other than line, trafo, gen fails the whole
call with the unknown-contingency-type error dict and the three accepted
kinds resolve to the full index list of their table; when an explicit
element_indices list is passed the kind is not validated at all, the list
is used verbatim, and the call ends either as a success report or as a
restorative-solve failure dict, never as the unknown-kind error.  What
each iteration then does depends on the kind: a key absent from the
network dict fails locally with the KeyError, while a present element
table outside the three kinds is genuinely disabled and solved (see the
counterexample for one instance of each). -/
theorem C2_kind_validation (solver : Solver) (net : Network) (ctype : String)
    (l : List Nat) :
    (ctype ≠ "line" → ctype ≠ "trafo" → ctype ≠ "gen" →
      (run_contingency_analysis solver (some net) ctype none).2
        = .errorDict ("Unknown contingency type: " ++ ctype)) ∧
    resolve_indices net "line" none = .ok (net.input.line.map Elem.idx) ∧
    resolve_indices net "trafo" none = .ok (net.input.trafo.map Elem.idx) ∧
    resolve_indices net "gen" none = .ok (net.input.gen.map Elem.idx) ∧
    resolve_indices net ctype (some l) = .ok l ∧
    ((run_contingency_analysis solver (some net) ctype (some l)).2.status = "success" ∨
      ∃ m, (run_contingency_analysis solver (some net) ctype (some l)).2
        = .errorDict ("Contingency analysis failed: " ++ m)) := by
  refine ⟨?_, rfl, rfl, rfl, rfl, ?_⟩
  · intro h1 h2 h3
    have hres : resolve_indices net ctype none
        = .error ("Unknown contingency type: " ++ ctype) := by
      simp [resolve_indices, h1, h2, h3]
    simp [run_contingency_analysis, hres]
  · cases hb : solver net.input with
    | error e =>
      right
      refine ⟨e, ?_⟩
      have h := congrArg Prod.snd
        (run_contingency_analysis_err solver net ctype (some l) l e rfl hb)
      simpa using h
    | ok out =>
      left
      have h := congrArg Prod.snd
        (run_contingency_analysis_ok solver net ctype (some l) l out rfl hb)
      rw [show ((run_contingency_analysis solver (some net) ctype (some l)).2)
        = _ from by simpa using h]
      rfl

/-- Witness for C2 as amended at the kind breaker with and without an
explicit index list. -/
theorem C2_witness :
    (run_contingency_analysis okSolver (some exNetB) "breaker" none).2
      = .errorDict ("Unknown contingency type: " ++ "breaker") ∧
    resolve_indices exNetB "breaker" (some [0]) = .ok [0] ∧
    ((run_contingency_analysis okSolver (some exNetB) "breaker" (some [0])).2.status
        = "success" ∨
      ∃ m, (run_contingency_analysis okSolver (some exNetB) "breaker" (some [0])).2
        = .errorDict ("Contingency analysis failed: " ++ m)) := by
  have h := C2_kind_validation okSolver exNetB "breaker" [0]
  exact ⟨h.1 (by decide) (by decide) (by decide), h.2.2.2.2.1, h.2.2.2.2.2⟩

/-- Claim C5: whenever the call returns a success report, the result
sequence has exactly one entry per resolved target index (the full table
index list when element_indices is omitted, the passed list verbatim
otherwise, including the empty list), in the iteration order of that set
and not re-sorted, each entry's contingency field being the kind name, an
underscore and the index; and the base case was computed (its fields in
the report reflect the base solve). -/
theorem C5_result_sequence (solver : Solver) (net : Network) (ctype : String)
    (eis : Option (List Nat)) (L : List Nat) (rep : Report)
    (hres : resolve_indices net ctype eis = .ok L)
    (hrun : (run_contingency_analysis solver (some net) ctype eis).2
      = .successReport rep) :
    rep.contingency_results.length = L.length ∧
    rep.contingency_results.map CResult.contingency
      = L.map (fun i => ctype ++ "_" ++ toString i) ∧
    (∀ l, eis = some l → L = l) ∧
    (∃ out, solver net.input = .ok out ∧
      rep.base_case_converged = true ∧ rep.base_case_losses_mw = sumLosses out) := by
  have hL : ∀ l, eis = some l → L = l := by
    intro l hl
    rw [hl] at hres
    have : Except.ok (ε := String) l = .ok L := hres
    simpa using this.symm
  cases hb : solver net.input with
  | error e =>
    have h := congrArg Prod.snd
      (run_contingency_analysis_err solver net ctype eis L e hres hb)
    rw [hrun] at h
    exact absurd h (by simp)
  | ok out =>
    have h := congrArg Prod.snd
      (run_contingency_analysis_ok solver net ctype eis L out hres hb)
    rw [hrun] at h
    simp only [RCAResult.successReport.injEq] at h
    subst h
    refine ⟨by simp, ?_, hL, ⟨out, rfl, rfl, rfl⟩⟩
    simp only [List.map_map]
    exact List.map_congr_left
      (fun i _ => run_single_contingency_name solver ctype (applySolve net out) i)

/-- Witness for C5: the two-line network of the spec scenario gives two
entries named line_0 and line_1 in order, and an explicitly empty index
list gives zero entries with the base case still computed. -/
theorem C5_witness :
    resolve_indices exNetA "line" none = .ok [0, 1] ∧
    (run_contingency_analysis okSolver (some exNetA) "line" none).2
      = .successReport repA ∧
    repA.contingency_results.length = [0, 1].length ∧
    repA.contingency_results.map CResult.contingency
      = [0, 1].map (fun i => "line" ++ "_" ++ toString i) ∧
    resolve_indices exNetA "line" (some []) = .ok [] ∧
    (run_contingency_analysis okSolver (some exNetA) "line" (some [])).2
      = .successReport repEmpty ∧
    repEmpty.contingency_results.length = ([] : List Nat).length ∧
    repEmpty.base_case_converged = true := by
  have h1 := C5_result_sequence okSolver exNetA "line" none [0, 1] repA rfl rfl
  have h2 := C5_result_sequence okSolver exNetA "line" (some []) [] repEmpty rfl rfl
  obtain ⟨out2, hout2, hconv2, hloss2⟩ := h2.2.2.2
  exact ⟨rfl, rfl, h1.1, h1.2.1, rfl, rfl, h2.1, hconv2⟩

/-- Claim C8: the loop never mutates the live network or the pristine
copy; every iteration's entry is computed from the pristine copy alone
(never from a previous iteration's case), one entry per index in order;
and each successfully built case network is the pristine copy with
exactly the target element's in_service flag forced false — every table
of any other kind unchanged, target flag false, every other in_service
flag of every table and label unchanged, so outages never compound. -/
theorem C8_isolation (solver : Solver) (ctype : String) :
    (∀ (L : List Nat) (st : LoopState),
      (contingency_loop solver ctype L st).live = st.live ∧
      (contingency_loop solver ctype L st).orig = st.orig) ∧
    (∀ (L : List Nat) (st : LoopState),
      (contingency_loop solver ctype L st).results
        = st.results ++ L.map (run_single_contingency solver ctype st.orig)) ∧
    (∀ (origNet : Network) (idx : Nat) (cnet : Network),
      caseNetOf origNet ctype idx = .ok cnet →
      (∀ key : String, key ≠ ctype →
        collOf cnet.input key = collOf origNet.input key) ∧
      inServiceOf cnet.input ctype idx = some false ∧
      (∀ (key : String) (j : Nat), ¬(key = ctype ∧ j = idx) →
        inServiceOf cnet.input key j = inServiceOf origNet.input key j)) := by
  refine ⟨fun L st => ⟨contingency_loop_live solver ctype L st,
      contingency_loop_orig solver ctype L st⟩,
    fun L st => contingency_loop_results solver ctype L st,
    fun origNet idx cnet h => ?_⟩
  obtain ⟨h1, h2, h3, h4⟩ := caseNetOf_spec origNet ctype idx cnet h
  exact ⟨h1, h3, h4⟩

/-- Witness for C8 at the concrete line-0 case of the two-line network. -/
theorem C8_witness :
    caseNetOf exNetA "line" 0 = .ok caseA0 ∧
    (contingency_loop failSolver "line" [0, 1] ⟨exNetA, exNetA, []⟩).live = exNetA ∧
    (contingency_loop failSolver "line" [0, 1] ⟨exNetA, exNetA, []⟩).orig = exNetA ∧
    collOf caseA0.input "bus" = collOf exNetA.input "bus" ∧
    collOf caseA0.input "trafo" = collOf exNetA.input "trafo" ∧
    inServiceOf caseA0.input "line" 0 = some false ∧
    inServiceOf caseA0.input "line" 1 = inServiceOf exNetA.input "line" 1 ∧
    inServiceOf caseA0.input "gen" 0 = inServiceOf exNetA.input "gen" 0 := by
  have h := C8_isolation failSolver "line"
  have hcase := h.2.2 exNetA 0 caseA0 rfl
  exact ⟨rfl, (h.1 [0, 1] ⟨exNetA, exNetA, []⟩).1, (h.1 [0, 1] ⟨exNetA, exNetA, []⟩).2,
    hcase.1 "bus" (by decide), hcase.1 "trafo" (by decide),
    hcase.2.1, hcase.2.2 "line" 1 (by simp), hcase.2.2 "gen" 0 (by simp)⟩

/-- Claim C9: the call never changes the input fields (bus table, element
tables with their in_service flags — the topology) of the network left in
the active slot: the loop works on copies and the base and restorative
solves write only result fields, so afterwards the slot's topology is
exactly what it was before the call and no element is left out of
service by the analysis. -/
theorem C9_topology_preserved (solver : Solver) (slot : Option Network)
    (ctype : String) (eis : Option (List Nat)) :
    ((run_contingency_analysis solver slot ctype eis).1).map Network.input
      = slot.map Network.input := by
  cases slot with
  | none => rfl
  | some net =>
    cases hres : resolve_indices net ctype eis with
    | error m => simp [run_contingency_analysis, hres]
    | ok L =>
      cases hb : solver net.input with
      | error e =>
        rw [run_contingency_analysis_err solver net ctype eis L e hres hb]
      | ok out =>
        rw [run_contingency_analysis_ok solver net ctype eis L out hres hb]
        rfl

/-- Claim C10: the call is total and always hands back a dict with a
status key of error or success: the no-active-network condition becomes
the error dict with the accessor's message, an unknown kind with omitted
element_indices becomes the unknown-type error dict, and a solver-level
failure becomes either failure fields inside a success report or the
outer handler's error dict — never a propagated exception. -/
theorem C10_total_and_status (solver : Solver) (slot : Option Network)
    (ctype : String) (eis : Option (List Nat)) :
    ((run_contingency_analysis solver slot ctype eis).2.status = "error" ∨
      (run_contingency_analysis solver slot ctype eis).2.status = "success") ∧
    (slot = none →
      (run_contingency_analysis solver slot ctype eis).2 = .errorDict noNetworkMsg) ∧
    (∀ net, slot = some net → eis = none →
      ctype ≠ "line" → ctype ≠ "trafo" → ctype ≠ "gen" →
      (run_contingency_analysis solver slot ctype eis).2
        = .errorDict ("Unknown contingency type: " ++ ctype)) ∧
    (∀ net L e, slot = some net → resolve_indices net ctype eis = .ok L →
      solver net.input = .error e →
      (run_contingency_analysis solver slot ctype eis).2
        = .errorDict ("Contingency analysis failed: " ++ e)) := by
  refine ⟨?_, ?_, ?_, ?_⟩
  · cases h : (run_contingency_analysis solver slot ctype eis).2 with
    | errorDict m => left; rfl
    | successReport r => right; rfl
  · intro h
    subst h
    rfl
  · intro net hsl he h1 h2 h3
    subst hsl
    subst he
    have hres : resolve_indices net ctype none
        = .error ("Unknown contingency type: " ++ ctype) := by
      simp [resolve_indices, h1, h2, h3]
    simp [run_contingency_analysis, hres]
  · intro net L e hsl hres hb
    subst hsl
    have h := congrArg Prod.snd (run_contingency_analysis_err solver net ctype eis L e hres hb)
    simpa using h

/-- Witness for C10 over its three guarded conditions at concrete
inputs. -/
theorem C10_witness :
    (run_contingency_analysis okSolver none "line" none).2 = .errorDict noNetworkMsg ∧
    (run_contingency_analysis okSolver (some exNetB) "breaker" none).2
      = .errorDict ("Unknown contingency type: " ++ "breaker") ∧
    (run_contingency_analysis failSolver (some exNetB) "line" none).2
      = .errorDict ("Contingency analysis failed: "
          ++ "Power Flow nr did not converge after 10 iterations!") := by
  refine ⟨(C10_total_and_status okSolver none "line" none).2.1 rfl, ?_, ?_⟩
  · exact (C10_total_and_status okSolver (some exNetB) "breaker" none).2.2.1 exNetB rfl rfl
      (by decide) (by decide) (by decide)
  · exact (C10_total_and_status failSolver (some exNetB) "line" none).2.2.2 exNetB [0] _
      rfl rfl rfl

end PowerMCP
